import Mathlib

/-!
# RentEase booking lifecycle and wallet ledger: a shallow embedding

This file embeds the booking/wallet core of the RentEase marketplace in
Lean 4 and proves properties of the embedded operations.

Embedded source locations:
* `server/models/User.js` — wallet schema (balance default 1000,
  transaction list default empty).
* the Booking model — `calculatePricing`, `addTimelineEntry`, the
  status enum and the pricing / payment sub-documents.
* `server/controllers/bookingController.js` — `createBooking` and
  `updateBookingStatus`.
* the item controller — `extendRentalPeriod`.
* the auth controller — `addToWallet` (wallet top-up).

Modelling conventions:
* JS numbers holding money amounts or millisecond timestamps are
  modelled as `Int` (the code only ever adds, subtracts, multiplies,
  rounds and compares them).
* Dates are their millisecond epoch values (`Int`);
  `Math.ceil((a - b) / 86400000)` becomes `jsCeilDiv (a - b) msPerDay`.
* `Math.round(x)` applied to a quotient `n / d` of integers becomes
  `jsRoundDiv n d` (round half toward positive infinity, as JS does).
* Mongo `findByIdAndUpdate` with `$inc`/`$push` on a wallet becomes a
  pure update of the corresponding `User` record
  (`User.creditWallet` / `User.debitWallet`).
* HTTP error responses become `Except` error values; a handler that
  saves successfully returns `Except.ok` with the updated records.
* `Date.toDateString()` inside a human-readable timeline note is
  abstracted to `toString` of the millisecond value.
-/

deriving instance DecidableEq for Except

namespace RentEase

/-- JS `Math.ceil (a / b)` for integers with `b > 0`. -/
def jsCeilDiv (a b : Int) : Int := -((-a).fdiv b)

/-- JS `Math.round (n / d)` for integers with `d > 0`: JS rounds half
toward positive infinity, i.e. `⌊n / d + 1 / 2⌋`. -/
def jsRoundDiv (n d : Int) : Int := (2 * n + d).fdiv (2 * d)

/-- The value `1000 * 60 * 60 * 24` in milliseconds, the day length used by the
pricing code. -/
def msPerDay : Int := 1000 * 60 * 60 * 24

/-- Booking status enum from the Booking schema
(`enum: ['pending', 'approved', 'active', 'completed', 'cancelled']`). -/
inductive Status where
  | pending
  | approved
  | active
  | completed
  | cancelled
deriving DecidableEq

/-- Wallet transaction type enum (`enum: ['credit', 'debit']`). -/
inductive TxnType where
  | credit
  | debit
deriving DecidableEq

/-- One entry of `wallet.transactions` (the `date` and `bookingId`
fields play no role in any property below and are omitted). -/
structure Txn where
  type : TxnType
  amount : Int
  description : String
deriving DecidableEq

/-- The `wallet` sub-document of the User schema. -/
structure Wallet where
  balance : Int
  transactions : List Txn
deriving DecidableEq

/-- A user, restricted to the wallet-relevant fields plus the
`stats.totalEarnings` counter touched by booking completion. -/
structure User where
  wallet : Wallet
  statsTotalEarnings : Int
deriving DecidableEq

/-- A freshly registered user: the schema defaults are
`balance: 1000` (the demo credit) and an empty transaction list. -/
def newUser : User :=
  { wallet := { balance := 1000, transactions := [] }
    statsTotalEarnings := 0 }

/-- Increment of `wallet.balance` by `amount` plus a push of a credit
transaction, as every crediting update in the controllers does. -/
def User.creditWallet (u : User) (amount : Int) (description : String) : User :=
  { u with wallet :=
      { balance := u.wallet.balance + amount
        transactions := u.wallet.transactions ++ [⟨TxnType.credit, amount, description⟩] } }

/-- Decrement of `wallet.balance` by `amount` plus a push of a debit
transaction, as every debiting update in the controllers does. -/
def User.debitWallet (u : User) (amount : Int) (description : String) : User :=
  { u with wallet :=
      { balance := u.wallet.balance - amount
        transactions := u.wallet.transactions ++ [⟨TxnType.debit, amount, description⟩] } }

/-- The signed value of a transaction: credits count positively,
debits negatively. -/
def txnSigned (t : Txn) : Int :=
  match t.type with
  | TxnType.credit => t.amount
  | TxnType.debit => -t.amount

/-- Sum of credit amounts minus sum of debit amounts over a
transaction history. -/
def signedSum (ts : List Txn) : Int := (ts.map txnSigned).sum

/-- The difference between a user's stored balance and the signed sum
of their transaction history. -/
def ledgerDrift (u : User) : Int := u.wallet.balance - signedSum u.wallet.transactions

/-- The `pricing` snapshot sub-document of the Booking schema. -/
structure Pricing where
  dailyPrice : Int
  totalDays : Int
  subtotal : Int
  depositAmount : Int
  platformFee : Int
  totalAmount : Int
  lenderEarnings : Int
deriving DecidableEq

/-- The method `calculatePricing` of the Booking schema: totalDays rounds the
date difference up to whole days, the deposit is
`Math.round(itemValue * depositPercentage / 100)`, the platform fee is
`Math.round(subtotal * 0.05)` (the hardcoded 5% rate). -/
def calculatePricing (dailyPrice itemValue depositPercentage startDate endDate : Int) :
    Pricing :=
  let totalDays := jsCeilDiv (endDate - startDate) msPerDay
  let subtotal := dailyPrice * totalDays
  let depositAmount := jsRoundDiv (itemValue * depositPercentage) 100
  let platformFee := jsRoundDiv (subtotal * 5) 100
  let totalAmount := subtotal + depositAmount + platformFee
  let lenderEarnings := subtotal - platformFee
  { dailyPrice := dailyPrice
    totalDays := totalDays
    subtotal := subtotal
    depositAmount := depositAmount
    platformFee := platformFee
    totalAmount := totalAmount
    lenderEarnings := lenderEarnings }

/-- The two pricing equations stated by the spec for every booking. -/
def pricingInvariant (p : Pricing) : Prop :=
  p.totalAmount = p.subtotal + p.depositAmount + p.platformFee ∧
  p.lenderEarnings = p.subtotal - p.platformFee

/-- The `payment` flags sub-document of the Booking schema. -/
structure Payment where
  depositPaid : Bool
  depositRefunded : Bool
  finalPaymentMade : Bool
  lenderPaid : Bool
deriving DecidableEq

/-- One entry of the booking `timeline` (timestamp omitted). -/
structure TimelineEntry where
  status : String
  note : String
deriving DecidableEq

/-- A booking, with `item`, `borrower` and `lender` as numeric ids. -/
structure Booking where
  item : Nat
  borrower : Nat
  lender : Nat
  startDate : Int
  endDate : Int
  status : Status
  pricing : Pricing
  payment : Payment
  timeline : List TimelineEntry
deriving DecidableEq

/-- The method `addTimelineEntry` of the Booking schema: pushes one entry. -/
def Booking.addTimelineEntry (b : Booking) (status note : String) : Booking :=
  { b with timeline := b.timeline ++ [⟨status, note⟩] }

/-- The `availability` sub-document of the Item schema (only the
`isAvailable` flag matters to the booking subsystem). -/
structure Availability where
  isAvailable : Bool
deriving DecidableEq

/-- The `stats` sub-document of the Item schema. -/
structure ItemStats where
  bookings : Int
  totalEarnings : Int
deriving DecidableEq

/-- An item, restricted to the fields the booking subsystem reads or
writes. -/
structure Item where
  id : Nat
  owner : Nat
  title : String
  dailyPrice : Int
  itemValue : Int
  depositPercentage : Int
  availability : Availability
  stats : ItemStats
deriving DecidableEq

/-- The error responses `createBooking` can return before persisting
(the 500-on-save path for `startDate >= endDate` comes from the
Booking schema's pre-save validation). -/
inductive CreateError where
  | notFound
  | ownItem
  | unavailable
  | dateConflict
  | insufficientFunds
  | invalidDates
deriving DecidableEq

/-- The conflict predicate of the Mongo query in `createBooking`:
same item, status in `{approved, active}`, and
`startDate <= proposed.end AND endDate >= proposed.start`. -/
def conflictsWith (itemId : Nat) (propStart propEnd : Int) (b : Booking) : Bool :=
  b.item == itemId &&
  (b.status == Status.approved || b.status == Status.active) &&
  decide (b.startDate ≤ propEnd) && decide (b.endDate ≥ propStart)

/-- The handler `createBooking` from the booking controller.  The guards appear in
source order: item lookup, self-booking, availability flag, date
conflict, pricing computation, balance sufficiency; the final
`invalidDates` check models the pre-save hook that rejects
`startDate >= endDate` when the booking is saved.  On success the
persisted booking carries the pricing snapshot, status `pending` and
the initial timeline entry. -/
def createBooking (itemOpt : Option Item) (borrowerId : Nat) (borrower : User)
    (existingBookings : List Booking) (startDate endDate : Int) :
    Except CreateError Booking :=
  match itemOpt with
  | none => Except.error CreateError.notFound
  | some item =>
    if item.owner == borrowerId then
      Except.error CreateError.ownItem
    else if !item.availability.isAvailable then
      Except.error CreateError.unavailable
    else if existingBookings.any (conflictsWith item.id startDate endDate) then
      Except.error CreateError.dateConflict
    else
      let pricing := calculatePricing item.dailyPrice item.itemValue
        item.depositPercentage startDate endDate
      if borrower.wallet.balance < pricing.totalAmount then
        Except.error CreateError.insufficientFunds
      else if decide (startDate ≥ endDate) then
        Except.error CreateError.invalidDates
      else
        Except.ok
          { item := item.id
            borrower := borrowerId
            lender := item.owner
            startDate := startDate
            endDate := endDate
            status := Status.pending
            pricing := pricing
            payment := ⟨false, false, false, false⟩
            timeline := [⟨"pending", "Booking request created"⟩] }

/-- The records `updateBookingStatus` loads and may write back: the
booking and its populated borrower, lender and item. -/
structure UpdState where
  booking : Booking
  borrower : User
  lender : User
  item : Item
deriving DecidableEq

/-- The only pre-save error `updateBookingStatus` can produce after
the booking is found: the 403 for a non-lender requesting approval or
cancellation. -/
inductive UpdError where
  | forbidden
deriving DecidableEq

/-- The handler `updateBookingStatus` from the booking controller.  The requested
status arrives as a raw string; a request matching none of the four
transition branches changes nothing but still saves (the controller
falls through to `booking.save()`).  Each branch mirrors the source:
wallet updates via `$inc`/`$push`, payment flags, the item
availability flag, item stats and the timeline append. -/
def updateBookingStatus (reqStatus : String) (note : Option String) (actorId : Nat)
    (s : UpdState) : Except UpdError UpdState :=
  if (reqStatus == "approved" || reqStatus == "cancelled") &&
      !(s.booking.lender == actorId) then
    Except.error UpdError.forbidden
  else if reqStatus == "approved" && s.booking.status == Status.pending then
    let borrower := s.borrower.debitWallet s.booking.pricing.totalAmount
      ("Booking payment for " ++ s.item.title)
    let booking :=
      { s.booking with
          payment := { s.booking.payment with depositPaid := true }
          status := Status.approved }
    let booking := booking.addTimelineEntry "approved"
      (note.getD "Booking approved by lender")
    let item := { s.item with availability := { isAvailable := false } }
    Except.ok { s with booking := booking, borrower := borrower, item := item }
  else if reqStatus == "cancelled" then
    let borrower :=
      if s.booking.payment.depositPaid then
        s.borrower.creditWallet s.booking.pricing.totalAmount
          ("Refund for cancelled booking: " ++ s.item.title)
      else s.borrower
    let booking := { s.booking with status := Status.cancelled }
    let item := { s.item with availability := { isAvailable := true } }
    let booking := booking.addTimelineEntry "cancelled" (note.getD "Booking cancelled")
    Except.ok { s with booking := booking, borrower := borrower, item := item }
  else if reqStatus == "active" && s.booking.status == Status.approved then
    let booking := { s.booking with status := Status.active }
    let booking := booking.addTimelineEntry "active" "Item pickup completed"
    let item := { s.item with availability := { isAvailable := false } }
    Except.ok { s with booking := booking, item := item }
  else if reqStatus == "completed" && s.booking.status == Status.active then
    let lender := s.lender.creditWallet s.booking.pricing.lenderEarnings
      ("Earnings from rental: " ++ s.item.title)
    let lender := { lender with
      statsTotalEarnings := lender.statsTotalEarnings + s.booking.pricing.lenderEarnings }
    let borrower := s.borrower.creditWallet s.booking.pricing.depositAmount
      ("Deposit refund for: " ++ s.item.title)
    let booking :=
      { s.booking with
          payment := { s.booking.payment with
            finalPaymentMade := true, lenderPaid := true, depositRefunded := true }
          status := Status.completed }
    let booking := booking.addTimelineEntry "completed" "Booking completed successfully"
    let item :=
      { s.item with
          availability := { isAvailable := true }
          stats :=
            { bookings := s.item.stats.bookings + 1
              totalEarnings := s.item.stats.totalEarnings + s.booking.pricing.lenderEarnings } }
    Except.ok { booking := booking, borrower := borrower, lender := lender, item := item }
  else
    Except.ok s

/-- The error responses `extendRentalPeriod` can return once the
booking is found. -/
inductive ExtendError where
  | forbidden
  | invalidStatus
  | endNotAfterStart
  | endNotAfterCurrentEnd
  | insufficientFunds
deriving DecidableEq

/-- The handler `extendRentalPeriod` from the item controller: only the item owner
may extend, only for a booking in `{approved, active}`, with a new end
date after the start date and after the current end date; the borrower
must cover `additionalDays * dailyPrice`.  On success the pricing
fields `totalDays`, `subtotal`, `totalAmount` and `lenderEarnings`
receive the deltas, the borrower is debited and one timeline entry is
appended. -/
def extendRentalPeriod (booking : Booking) (item : Item) (borrower : User)
    (actorId : Nat) (newEndDate : Int) : Except ExtendError (Booking × User) :=
  if !(item.owner == actorId) then
    Except.error ExtendError.forbidden
  else if !(booking.status == Status.approved || booking.status == Status.active) then
    Except.error ExtendError.invalidStatus
  else if decide (newEndDate ≤ booking.startDate) then
    Except.error ExtendError.endNotAfterStart
  else if decide (newEndDate ≤ booking.endDate) then
    Except.error ExtendError.endNotAfterCurrentEnd
  else
    let additionalDays := jsCeilDiv (newEndDate - booking.endDate) msPerDay
    let additionalCost := additionalDays * booking.pricing.dailyPrice
    if borrower.wallet.balance < additionalCost then
      Except.error ExtendError.insufficientFunds
    else
      let booking1 :=
        { booking with
            endDate := newEndDate
            pricing :=
              { booking.pricing with
                  totalDays := booking.pricing.totalDays + additionalDays
                  subtotal := booking.pricing.subtotal + additionalCost
                  totalAmount := booking.pricing.totalAmount + additionalCost
                  lenderEarnings := booking.pricing.lenderEarnings + additionalCost } }
      let borrower1 := borrower.debitWallet additionalCost
        ("Extension payment for " ++ item.title)
      let booking1 := booking1.addTimelineEntry "extended"
        ("Rental extended by " ++ toString additionalDays ++ " days until " ++
          toString newEndDate)
      Except.ok (booking1, borrower1)

/-- The handler `addToWallet` from the auth controller (wallet top-up): rejects
non-positive amounts, otherwise credits the user's own wallet with one
credit transaction. -/
def addToWallet (amount : Int) (u : User) : Except String User :=
  if decide (amount ≤ 0) then
    Except.error "Amount must be a positive number"
  else
    Except.ok (u.creditWallet amount ("Wallet top-up of " ++ toString amount))

/-! ## Helper lemmas -/

theorem signedSum_append_single (ts : List Txn) (t : Txn) :
    signedSum (ts ++ [t]) = signedSum ts + txnSigned t := by
  simp [signedSum]

theorem ledgerDrift_credit (u : User) (a : Int) (d : String) :
    ledgerDrift (u.creditWallet a d) = ledgerDrift u := by
  simp [ledgerDrift, User.creditWallet, signedSum_append_single, txnSigned]

theorem ledgerDrift_debit (u : User) (a : Int) (d : String) :
    ledgerDrift (u.debitWallet a d) = ledgerDrift u := by
  simp [ledgerDrift, User.debitWallet, signedSum_append_single, txnSigned]
  ring

/-- Characterization of the cancellation branch: a `cancelled` request
by the lender always succeeds, refunds `totalAmount` exactly when
`depositPaid` is set, marks the booking cancelled, reopens the item
and appends one timeline entry. -/
theorem updateBookingStatus_cancel (note : Option String) (s : UpdState) :
    updateBookingStatus "cancelled" note s.booking.lender s =
      Except.ok
        { booking := ({ s.booking with status := Status.cancelled }).addTimelineEntry
            "cancelled" (note.getD "Booking cancelled")
          borrower :=
            if s.booking.payment.depositPaid then
              s.borrower.creditWallet s.booking.pricing.totalAmount
                ("Refund for cancelled booking: " ++ s.item.title)
            else s.borrower
          lender := s.lender
          item := { s.item with availability := ⟨true⟩ } } := by
  unfold updateBookingStatus
  simp

/-- Characterization of the approval branch: an `approved` request by
the lender on a `pending` booking debits the borrower, sets the
deposit flag, closes the item and appends one timeline entry. -/
theorem updateBookingStatus_approve (note : Option String) (s : UpdState)
    (h : s.booking.status = Status.pending) :
    updateBookingStatus "approved" note s.booking.lender s =
      Except.ok
        { booking := ({ s.booking with
              payment := { s.booking.payment with depositPaid := true }
              status := Status.approved }).addTimelineEntry "approved"
              (note.getD "Booking approved by lender")
          borrower := s.borrower.debitWallet s.booking.pricing.totalAmount
            ("Booking payment for " ++ s.item.title)
          lender := s.lender
          item := { s.item with availability := ⟨false⟩ } } := by
  unfold updateBookingStatus
  simp [h]

/-! ## Example entities used by witnesses and counterexamples

The numbers follow the worked example of the spec: a five-day rental
at `dailyPrice = 100`, `itemValue = 10000`, `depositPercentage = 20`,
giving `totalAmount = 2525`. -/

def exItem : Item :=
  { id := 10
    owner := 2
    title := "Camera"
    dailyPrice := 100
    itemValue := 10000
    depositPercentage := 20
    availability := ⟨true⟩
    stats := ⟨0, 0⟩ }

def exBorrower : User :=
  { wallet := { balance := 5000, transactions := [] }, statsTotalEarnings := 0 }

def exPendingBooking : Booking :=
  { item := 10
    borrower := 1
    lender := 2
    startDate := 0
    endDate := 5 * msPerDay
    status := Status.pending
    pricing := calculatePricing 100 10000 20 0 (5 * msPerDay)
    payment := ⟨false, false, false, false⟩
    timeline := [⟨"pending", "Booking request created"⟩] }

def exPendingState : UpdState :=
  { booking := exPendingBooking
    borrower := exBorrower
    lender := newUser
    item := exItem }

def exActiveBooking : Booking :=
  { exPendingBooking with
      status := Status.active
      payment := ⟨true, false, false, false⟩ }

def exActiveState : UpdState :=
  { exPendingState with booking := exActiveBooking }

def exCompletedState : UpdState :=
  { exPendingState with
      booking := { exPendingBooking with status := Status.completed } }

def exPendingUnavailState : UpdState :=
  { exPendingState with item := { exItem with availability := ⟨false⟩ } }

def exApprovedBooking : Booking :=
  { exPendingBooking with
      status := Status.approved
      payment := ⟨true, false, false, false⟩ }

/-- The result of extending `exActiveBooking` by two days to day 7:
`additionalDays = 2`, `additionalCost = 200`. -/
def exExtendedBooking : Booking :=
  { exActiveBooking with
      endDate := 7 * msPerDay
      pricing :=
        { dailyPrice := 100
          totalDays := 7
          subtotal := 700
          depositAmount := 2000
          platformFee := 25
          totalAmount := 2725
          lenderEarnings := 675 }
      timeline := exActiveBooking.timeline ++
        [⟨"extended", "Rental extended by 2 days until 604800000"⟩] }

/-! ## Claim theorems -/

/-- C4: at creation and under any extension or status update, the
pricing snapshot satisfies
`totalAmount = subtotal + depositAmount + platformFee` and
`lenderEarnings = subtotal - platformFee`. -/
theorem pricing_equations_hold_through_lifecycle :
    (∀ dp iv dep sd ed, pricingInvariant (calculatePricing dp iv dep sd ed)) ∧
    (∀ b item u actor newEnd b' u',
      extendRentalPeriod b item u actor newEnd = Except.ok (b', u') →
      pricingInvariant b.pricing → pricingInvariant b'.pricing) ∧
    (∀ req note actor s s',
      updateBookingStatus req note actor s = Except.ok s' →
      s'.booking.pricing = s.booking.pricing) := by
  refine ⟨?_, ?_, ?_⟩
  · intro dp iv dep sd ed
    constructor <;> simp [calculatePricing]
  · intro b item u actor newEnd b' u' h hinv
    unfold extendRentalPeriod at h
    split at h
    · exact absurd h (by simp)
    split at h
    · exact absurd h (by simp)
    split at h
    · exact absurd h (by simp)
    split at h
    · exact absurd h (by simp)
    simp only [] at h
    split at h
    · exact absurd h (by simp)
    simp only [Except.ok.injEq, Prod.mk.injEq] at h
    obtain ⟨hb, _⟩ := h
    obtain ⟨h1, h2⟩ := hinv
    subst hb
    constructor <;> simp [Booking.addTimelineEntry] <;> omega
  · intro req note actor s s' h
    unfold updateBookingStatus at h
    split at h
    · exact absurd h (by simp)
    split at h
    · simp only [Except.ok.injEq] at h
      subst h
      rfl
    split at h
    · simp only [Except.ok.injEq] at h
      subst h
      rfl
    split at h
    · simp only [Except.ok.injEq] at h
      subst h
      rfl
    split at h
    · simp only [Except.ok.injEq] at h
      subst h
      rfl
    · simp only [Except.ok.injEq] at h
      subst h
      rfl

/-- C4 witness: a concrete successful extension of the example booking
by two days preserves both pricing equations. -/
theorem pricing_equations_hold_through_lifecycle_witness :
    pricingInvariant exExtendedBooking.pricing :=
  pricing_equations_hold_through_lifecycle.2.1 exActiveBooking exItem exBorrower 2
    (7 * msPerDay) exExtendedBooking
    (exBorrower.debitWallet 200 "Extension payment for Camera")
    (by decide) ⟨by decide, by decide⟩

/-- C5: requesting status `completed` on a booking that is already
`completed` matches no transition branch: the controller falls through
and saves everything unchanged, so neither the lender's
`lenderEarnings` credit nor the borrower's `depositAmount` refund is
issued a second time. -/
theorem completed_on_completed_is_noop (note : Option String) (actorId : Nat)
    (s : UpdState) (h : s.booking.status = Status.completed) :
    updateBookingStatus "completed" note actorId s = Except.ok s := by
  simp [updateBookingStatus, h]

/-- C5 witness: on the concrete already-completed example state the
`completed` request returns the state unchanged. -/
theorem completed_on_completed_is_noop_witness :
    updateBookingStatus "completed" none 2 exCompletedState = Except.ok exCompletedState :=
  completed_on_completed_is_noop none 2 exCompletedState rfl

/-- C9 counterexample to the claim as stated: cancelling a booking
that never reserved the item (`pending`, `depositPaid = false`) does
not leave the item's availability flag unchanged — the code flips it
from `false` to `true` unconditionally. -/
theorem cancel_pending_flips_availability_eval :
    exPendingUnavailState.booking.payment.depositPaid = false ∧
    exPendingUnavailState.item.availability.isAvailable = false ∧
    (updateBookingStatus "cancelled" none 2 exPendingUnavailState).toOption.map
      (fun s => s.item.availability.isAvailable) = some true := by
  refine ⟨rfl, rfl, ?_⟩
  decide

/-- C9 amended: every cancellation request issued by the lender
succeeds and sets the item's availability flag to `true`
unconditionally, whether or not the booking had reserved the item. -/
theorem cancel_always_sets_available (note : Option String) (s : UpdState) :
    ∃ s', updateBookingStatus "cancelled" note s.booking.lender s = Except.ok s' ∧
      s'.item.availability.isAvailable = true := by
  unfold updateBookingStatus
  simp

/-- C2: the code lets `cancelled` be requested from any current
status.  Evaluated at concrete inputs: a booking in status `active`
and one in status `completed` both move to `cancelled` when the lender
requests it. -/
theorem cancelled_reachable_from_active_and_completed :
    exActiveState.booking.status = Status.active ∧
    (updateBookingStatus "cancelled" none 2 exActiveState).toOption.map
      (fun s => s.booking.status) = some Status.cancelled ∧
    exCompletedState.booking.status = Status.completed ∧
    (updateBookingStatus "cancelled" none 2 exCompletedState).toOption.map
      (fun s => s.booking.status) = some Status.cancelled := by
  refine ⟨rfl, ?_, rfl, ?_⟩ <;> decide

/-- C3: whenever `payment.depositPaid` is set, a `cancelled` request
by the lender credits the borrower `totalAmount` with one credit
transaction, whatever the current status is, and a second cancellation
request credits the borrower again, for `2 * totalAmount` in total. -/
theorem cancel_credits_depositPaid_regardless_of_status
    (s : UpdState) (note1 note2 : Option String)
    (hdep : s.booking.payment.depositPaid = true) :
    ∃ s1 s2,
      updateBookingStatus "cancelled" note1 s.booking.lender s = Except.ok s1 ∧
      s1.borrower.wallet.balance
        = s.borrower.wallet.balance + s.booking.pricing.totalAmount ∧
      s1.borrower.wallet.transactions
        = s.borrower.wallet.transactions ++
            [⟨TxnType.credit, s.booking.pricing.totalAmount,
              "Refund for cancelled booking: " ++ s.item.title⟩] ∧
      updateBookingStatus "cancelled" note2 s1.booking.lender s1 = Except.ok s2 ∧
      s2.borrower.wallet.balance
        = s.borrower.wallet.balance + 2 * s.booking.pricing.totalAmount := by
  refine ⟨_, _, updateBookingStatus_cancel note1 s, ?_, ?_,
    updateBookingStatus_cancel note2 _, ?_⟩
  · simp [hdep, User.creditWallet]
  · simp [hdep, User.creditWallet]
  · simp [hdep, User.creditWallet, Booking.addTimelineEntry]
    ring

/-- C3 witness: cancelling the already-active example booking (deposit
paid) twice credits the borrower twice. -/
theorem cancel_credits_depositPaid_regardless_of_status_witness :
    ∃ s1 s2,
      updateBookingStatus "cancelled" none exActiveState.booking.lender exActiveState
        = Except.ok s1 ∧
      s1.borrower.wallet.balance
        = exActiveState.borrower.wallet.balance
            + exActiveState.booking.pricing.totalAmount ∧
      s1.borrower.wallet.transactions
        = exActiveState.borrower.wallet.transactions ++
            [⟨TxnType.credit, exActiveState.booking.pricing.totalAmount,
              "Refund for cancelled booking: " ++ exActiveState.item.title⟩] ∧
      updateBookingStatus "cancelled" none s1.booking.lender s1 = Except.ok s2 ∧
      s2.borrower.wallet.balance
        = exActiveState.borrower.wallet.balance
            + 2 * exActiveState.booking.pricing.totalAmount :=
  cancel_credits_depositPaid_regardless_of_status exActiveState none none rfl

/-- C6: an `approved` request on a `pending` booking is rejected with
the 403 when the actor is not the lender, and when the actor is the
lender it debits the borrower `totalAmount` with one debit
transaction, sets `depositPaid`, closes the item and appends one
timeline entry. -/
theorem approve_pending_authorization_and_effects (note : Option String)
    (actorId : Nat) (s : UpdState) (h : s.booking.status = Status.pending) :
    (actorId ≠ s.booking.lender →
      updateBookingStatus "approved" note actorId s
        = Except.error UpdError.forbidden) ∧
    (actorId = s.booking.lender →
      ∃ s', updateBookingStatus "approved" note actorId s = Except.ok s' ∧
        s'.borrower.wallet.balance
          = s.borrower.wallet.balance - s.booking.pricing.totalAmount ∧
        s'.borrower.wallet.transactions
          = s.borrower.wallet.transactions ++
              [⟨TxnType.debit, s.booking.pricing.totalAmount,
                "Booking payment for " ++ s.item.title⟩] ∧
        s'.booking.payment.depositPaid = true ∧
        s'.booking.status = Status.approved ∧
        s'.item.availability.isAvailable = false ∧
        s'.booking.timeline = s.booking.timeline ++
          [⟨"approved", note.getD "Booking approved by lender"⟩]) := by
  constructor
  · intro hne
    unfold updateBookingStatus
    have hb : (s.booking.lender == actorId) = false := by
      simp [Ne.symm hne]
    simp [hb]
  · intro heq
    subst heq
    refine ⟨_, updateBookingStatus_approve note s h, ?_, ?_, ?_, ?_, ?_, ?_⟩ <;>
      simp [User.debitWallet, Booking.addTimelineEntry]

/-- C6 witness: the lender (user 2) approving the pending example
booking produces the debit and flag effects; user 3 is rejected. -/
theorem approve_pending_authorization_and_effects_witness :
    (updateBookingStatus "approved" none 3 exPendingState
      = Except.error UpdError.forbidden) ∧
    ∃ s', updateBookingStatus "approved" none 2 exPendingState = Except.ok s' ∧
      s'.borrower.wallet.balance
        = exPendingState.borrower.wallet.balance
            - exPendingState.booking.pricing.totalAmount ∧
      s'.borrower.wallet.transactions
        = exPendingState.borrower.wallet.transactions ++
            [⟨TxnType.debit, exPendingState.booking.pricing.totalAmount,
              "Booking payment for " ++ exPendingState.item.title⟩] ∧
      s'.booking.payment.depositPaid = true ∧
      s'.booking.status = Status.approved ∧
      s'.item.availability.isAvailable = false ∧
      s'.booking.timeline = exPendingState.booking.timeline ++
        [⟨"approved", "Booking approved by lender"⟩] :=
  ⟨(approve_pending_authorization_and_effects none 3 exPendingState rfl).1
      (by decide),
    by
      have h2 := (approve_pending_authorization_and_effects none 2
        exPendingState rfl).2 rfl
      simpa using h2⟩

/-- C7: when the guards before the balance check pass and the
borrower's balance is strictly below the computed `totalAmount`,
booking creation fails with the insufficient-funds error; no booking
value is produced and `createBooking` never touches any wallet (it
only reads the balance). -/
theorem create_insufficient_balance_fails (item : Item) (borrowerId : Nat)
    (borrower : User) (existing : List Booking) (sd ed : Int)
    (hown : item.owner ≠ borrowerId)
    (havail : item.availability.isAvailable = true)
    (hconf : existing.any (conflictsWith item.id sd ed) = false)
    (hbal : borrower.wallet.balance <
      (calculatePricing item.dailyPrice item.itemValue item.depositPercentage
        sd ed).totalAmount) :
    createBooking (some item) borrowerId borrower existing sd ed
      = Except.error CreateError.insufficientFunds := by
  unfold createBooking
  have hb : (item.owner == borrowerId) = false := by simp [hown]
  simp [hb, havail, hconf, hbal]

/-- C7 witness: Scenario A of the spec — a borrower with balance 1000
requesting the 2525-cost example rental is rejected. -/
theorem create_insufficient_balance_fails_witness :
    createBooking (some exItem) 1 newUser [] 0 (5 * msPerDay)
      = Except.error CreateError.insufficientFunds :=
  create_insufficient_balance_fails exItem 1 newUser [] 0 (5 * msPerDay)
    (by decide) rfl rfl (by decide)

/-- C8: with the guards before the conflict check passing, creation
fails with the date-conflict error exactly when some existing booking
on the same item with status `approved` or `active` satisfies
`existing.start <= proposed.end` and `existing.end >= proposed.start`;
`pending`, `completed` and `cancelled` bookings never block. -/
theorem create_dateConflict_iff_overlap (item : Item) (borrowerId : Nat)
    (borrower : User) (existing : List Booking) (sd ed : Int)
    (hown : item.owner ≠ borrowerId)
    (havail : item.availability.isAvailable = true) :
    createBooking (some item) borrowerId borrower existing sd ed
        = Except.error CreateError.dateConflict ↔
      ∃ b ∈ existing, b.item = item.id ∧
        (b.status = Status.approved ∨ b.status = Status.active) ∧
        b.startDate ≤ ed ∧ b.endDate ≥ sd := by
  have hb : (item.owner == borrowerId) = false := by simp [hown]
  have hiff : existing.any (conflictsWith item.id sd ed) = true ↔
      ∃ b ∈ existing, b.item = item.id ∧
        (b.status = Status.approved ∨ b.status = Status.active) ∧
        b.startDate ≤ ed ∧ b.endDate ≥ sd := by
    simp [List.any_eq_true, conflictsWith, and_assoc]
  rcases Bool.eq_false_or_eq_true (existing.any (conflictsWith item.id sd ed))
    with hc | hc
  rotate_left
  · constructor
    · intro h
      exfalso
      unfold createBooking at h
      simp [hb, havail, hc] at h
      split at h
      · simp at h
      · split at h
        · simp at h
        · simp at h
    · intro hex
      exact absurd (hiff.mpr hex) (by simp [hc])
  · have hL : createBooking (some item) borrowerId borrower existing sd ed
        = Except.error CreateError.dateConflict := by
      unfold createBooking
      simp [hb, havail, hc]
    simp only [hL, true_iff, eq_self_iff_true]
    exact hiff.mp hc

/-- C8 witness: an `approved` booking over days 0–5 blocks a proposed
range starting exactly at day 5 (touching boundaries conflict). -/
theorem create_dateConflict_iff_overlap_witness :
    createBooking (some exItem) 1 exBorrower [exApprovedBooking]
        (5 * msPerDay) (8 * msPerDay)
      = Except.error CreateError.dateConflict :=
  (create_dateConflict_iff_overlap exItem 1 exBorrower [exApprovedBooking]
      (5 * msPerDay) (8 * msPerDay) (by decide) rfl).mpr
    ⟨exApprovedBooking, by simp, rfl, Or.inl rfl, by decide, by decide⟩

/-- The quantity `additionalDays` as computed by `extendRentalPeriod`. -/
def additionalDays (b : Booking) (newEnd : Int) : Int :=
  jsCeilDiv (newEnd - b.endDate) msPerDay

/-- The quantity `additionalCost` as computed by `extendRentalPeriod`. -/
def additionalCost (b : Booking) (newEnd : Int) : Int :=
  additionalDays b newEnd * b.pricing.dailyPrice

/-- C10: a successful extension implies the actor is the item owner,
the status is `approved` or `active`, the new end is strictly later
and the borrower could afford `additionalCost`; its effects are the
four pricing deltas with deposit and platform fee untouched, one debit of
`additionalCost` on the borrower and one appended timeline entry.
When all those preconditions hold but the balance is short, the
request fails with the insufficient-funds error. -/
theorem extend_conditions_and_effects (b : Booking) (item : Item) (u : User)
    (actorId : Nat) (newEnd : Int) (hdates : b.startDate < b.endDate) :
    (∀ b' u', extendRentalPeriod b item u actorId newEnd = Except.ok (b', u') →
      actorId = item.owner ∧
      (b.status = Status.approved ∨ b.status = Status.active) ∧
      b.endDate < newEnd ∧
      additionalCost b newEnd ≤ u.wallet.balance ∧
      b'.endDate = newEnd ∧
      b'.pricing.totalDays = b.pricing.totalDays + additionalDays b newEnd ∧
      b'.pricing.subtotal = b.pricing.subtotal + additionalCost b newEnd ∧
      b'.pricing.totalAmount = b.pricing.totalAmount + additionalCost b newEnd ∧
      b'.pricing.lenderEarnings
        = b.pricing.lenderEarnings + additionalCost b newEnd ∧
      b'.pricing.depositAmount = b.pricing.depositAmount ∧
      b'.pricing.platformFee = b.pricing.platformFee ∧
      u'.wallet.balance = u.wallet.balance - additionalCost b newEnd ∧
      u'.wallet.transactions = u.wallet.transactions ++
        [⟨TxnType.debit, additionalCost b newEnd,
          "Extension payment for " ++ item.title⟩] ∧
      b'.timeline = b.timeline ++
        [⟨"extended", "Rental extended by " ++ toString (additionalDays b newEnd)
            ++ " days until " ++ toString newEnd⟩]) ∧
    (actorId = item.owner →
      (b.status = Status.approved ∨ b.status = Status.active) →
      b.endDate < newEnd →
      u.wallet.balance < additionalCost b newEnd →
      extendRentalPeriod b item u actorId newEnd
        = Except.error ExtendError.insufficientFunds) := by
  constructor
  · intro b' u' h
    unfold extendRentalPeriod at h
    split at h
    next => exact absurd h (by simp)
    next h1 =>
    split at h
    next => exact absurd h (by simp)
    next h2 =>
    split at h
    next => exact absurd h (by simp)
    next h3 =>
    split at h
    next => exact absurd h (by simp)
    next h4 =>
    simp only [] at h
    split at h
    next => exact absurd h (by simp)
    next h5 =>
    simp only [Except.ok.injEq, Prod.mk.injEq] at h
    obtain ⟨hb', hu'⟩ := h
    subst hb' hu'
    simp only [Bool.not_eq_true', Bool.not_eq_false] at h1 h2
    simp only [beq_iff_eq] at h1
    simp only [Bool.or_eq_true, beq_iff_eq] at h2
    simp only [decide_eq_true_eq, not_lt] at h3 h4 h5
    refine ⟨h1.symm, h2, by omega, ?_, ?_⟩
    · simpa [additionalCost, additionalDays] using h5
    · refine ⟨rfl, ?_⟩
      simp [additionalCost, additionalDays, User.debitWallet,
        Booking.addTimelineEntry]
  · intro hown hstat hend hbal
    unfold extendRentalPeriod
    have e1 : (item.owner == actorId) = true := by simp [hown]
    have e2 : (b.status == Status.approved || b.status == Status.active) = true := by
      rcases hstat with h | h <;> simp [h]
    have e3 : (newEnd ≤ b.startDate) = False := by
      simp only [eq_iff_iff, iff_false, not_le]
      omega
    have e4 : (newEnd ≤ b.endDate) = False := by
      simp only [eq_iff_iff, iff_false, not_le]
      omega
    have hbal' : u.wallet.balance
        < jsCeilDiv (newEnd - b.endDate) msPerDay * b.pricing.dailyPrice := by
      simpa [additionalCost, additionalDays] using hbal
    simp [e1, e2, e3, e4, hbal']

/-- C10 witness: the item owner (user 2) asking to extend the example
active booking to day 20 requires 1500 but the fresh borrower only
holds 1000, so the request fails with the insufficient-funds error. -/
theorem extend_conditions_and_effects_witness :
    extendRentalPeriod exActiveBooking exItem newUser 2 (20 * msPerDay)
      = Except.error ExtendError.insufficientFunds :=
  (extend_conditions_and_effects exActiveBooking exItem newUser 2 (20 * msPerDay)
      (by decide)).2 rfl (Or.inr rfl) (by decide) (by decide)

/-- C1 counterexample to the claim as stated: a freshly created user
already violates `balance = credits - debits`, because the schema
defaults are `balance = 1000` (the demo credit) with an empty
transaction history. -/
theorem newUser_balance_differs_from_signedSum :
    newUser.wallet.balance ≠ signedSum newUser.wallet.transactions := by
  decide

/-- C1 amended: at creation the balance exceeds the signed transaction
sum by exactly the initial demo credit of 1000, and every ledger
mutation — the generic wallet credit and debit (hence the booking
payment debit, the cancellation refund, the earnings credit and the
deposit-refund credit issued by `updateBookingStatus`, shown here for
the whole transition function), the extension debit and the wallet
top-up — preserves `balance - (credits - debits)`. -/
theorem ledgerDrift_invariant :
    ledgerDrift newUser = 1000 ∧
    (∀ u a d, ledgerDrift (User.creditWallet u a d) = ledgerDrift u) ∧
    (∀ u a d, ledgerDrift (User.debitWallet u a d) = ledgerDrift u) ∧
    (∀ req note actor s s',
      updateBookingStatus req note actor s = Except.ok s' →
      ledgerDrift s'.borrower = ledgerDrift s.borrower ∧
      ledgerDrift s'.lender = ledgerDrift s.lender) ∧
    (∀ b item u actor newEnd r,
      extendRentalPeriod b item u actor newEnd = Except.ok r →
      ledgerDrift r.2 = ledgerDrift u) ∧
    (∀ amount u u', addToWallet amount u = Except.ok u' →
      ledgerDrift u' = ledgerDrift u) := by
  refine ⟨by decide, ledgerDrift_credit, ledgerDrift_debit, ?_, ?_, ?_⟩
  · intro req note actor s s' h
    unfold updateBookingStatus at h
    split at h
    · exact absurd h (by simp)
    split at h
    · simp only [Except.ok.injEq] at h
      subst h
      exact ⟨ledgerDrift_debit _ _ _, rfl⟩
    split at h
    · simp only [Except.ok.injEq] at h
      subst h
      refine ⟨?_, rfl⟩
      by_cases hd : s.booking.payment.depositPaid
      · simp only [hd, if_true]
        exact ledgerDrift_credit _ _ _
      · simp [hd]
    split at h
    · simp only [Except.ok.injEq] at h
      subst h
      exact ⟨rfl, rfl⟩
    split at h
    · simp only [Except.ok.injEq] at h
      subst h
      exact ⟨ledgerDrift_credit _ _ _, ledgerDrift_credit _ _ _⟩
    · simp only [Except.ok.injEq] at h
      subst h
      exact ⟨rfl, rfl⟩
  · intro b item u actor newEnd r h
    unfold extendRentalPeriod at h
    split at h
    · exact absurd h (by simp)
    split at h
    · exact absurd h (by simp)
    split at h
    · exact absurd h (by simp)
    split at h
    · exact absurd h (by simp)
    simp only [] at h
    split at h
    · exact absurd h (by simp)
    simp only [Except.ok.injEq] at h
    subst h
    exact ledgerDrift_debit _ _ _
  · intro amount u u' h
    unfold addToWallet at h
    split at h
    · exact absurd h (by simp)
    simp only [Except.ok.injEq] at h
    subst h
    exact ledgerDrift_credit _ _ _

/-- C1 witness: topping up a fresh wallet by 500 leaves the drift
between balance and signed transaction sum unchanged. -/
theorem ledgerDrift_invariant_witness :
    ledgerDrift (newUser.creditWallet 500 ("Wallet top-up of " ++ toString (500 : Int)))
      = ledgerDrift newUser :=
  ledgerDrift_invariant.2.2.2.2.2 500 newUser
    (newUser.creditWallet 500 ("Wallet top-up of " ++ toString (500 : Int))) rfl

end RentEase
